import Mathlib

/-!
Verification development for the volume-analysis core of PowerTrader_AI
(`src/pt_volume.py`).

Modelling conventions:

* Python `float` values are modelled as exact rationals (`ℚ`).  All the
  arithmetic the verified claims depend on (sums, means, divisions,
  comparisons) is exact in the source up to floating-point rounding, and no
  claim below depends on a rounding artefact.
* `math.sqrt` (used only for the z-score standard deviation and the profile
  standard deviation, pt_volume.py:233 and 293) leaves ℚ, so it is modelled as
  an explicit function parameter `sqrtF : ℚ → ℚ`.  Every theorem below holds
  for every instantiation of this parameter, in particular for (any rational
  approximation of) the real square root; none of the verified claims depends
  on the value a square root returns.
* Python's bounded `deque(maxlen=m)` is modelled by appending and then keeping
  the last `m` elements (`pushBounded`).
* The f-string rendering of numbers inside reason texts is modelled by exact
  decimal renderers (`fmt2` for `{x:.2f}`, `fmtF` for the bare `{x}` float
  repr).  The decision classification in `make_decision` matches only on the
  static words of the reason strings, never on the rendered digits, and the
  lemmas below establish that the rendered digits cannot interfere with the
  matching; the exact tie-breaking of IEEE rounding is therefore irrelevant
  and round-to-nearest is used.
* `datetime.now()` in `make_decision` is modelled as an explicit `now`
  parameter; it only populates the decision's `timestamp` field.
-/

/-- OHLCV candle (`CandleVolumeData`, pt_volume.py:50-59).  The Python field
`open` is a Lean keyword and is rendered `open_p`. -/
structure CandleVolumeData where
  timestamp : ℤ
  open_p : ℚ
  high : ℚ
  low : ℚ
  close : ℚ
  volume : ℚ
deriving Inhabited

/-- Volume metrics for a single candle (`VolumeMetrics`, pt_volume.py:66-79). -/
structure VolumeMetrics where
  timestamp : ℤ
  volume : ℚ
  volume_sma : ℚ
  volume_ema : ℚ
  vwap : ℚ
  volume_ratio : ℚ
  z_score : ℚ
  trend : String
  anomaly : Bool
  anomaly_type : String
deriving Inhabited

/-- Volume profile over a period (`VolumeProfile`, pt_volume.py:82-95). -/
structure VolumeProfile where
  period : String
  avg_volume : ℚ
  median_volume : ℚ
  p25_volume : ℚ
  p50_volume : ℚ
  p75_volume : ℚ
  p90_volume : ℚ
  std_volume : ℚ
  total_volume : ℚ
  candle_count : ℕ
deriving Inhabited

/-- Volume-based trade entry decision (`VolumeDecision`, pt_volume.py:98-111).
`timestamp` holds the `datetime.now()` moment, modelled as an integer clock
value supplied by the caller. -/
structure VolumeDecision where
  timestamp : ℤ
  coin : String
  price : ℚ
  volume : ℚ
  metrics : VolumeMetrics
  decision : String
  reason : String
  confidence : ℚ
deriving Inhabited

/-- Backtest configuration (`VolumeBacktestConfig`, pt_volume.py:114-130). -/
structure VolumeBacktestConfig where
  min_volume_ratio : ℚ
  max_volume_ratio : ℚ
  high_volume_zscore : ℚ
  low_volume_zscore : ℚ
  require_increasing_volume : Bool
  vwap_distance_pct : ℚ

/-- The dataclass defaults of `VolumeBacktestConfig` (pt_volume.py:119-130):
0.5, 3.0, 2.0, -2.0, False, 0.5. -/
def defaultConfig : VolumeBacktestConfig :=
  { min_volume_ratio := 1/2
    max_volume_ratio := 3
    high_volume_zscore := 2
    low_volume_zscore := -2
    require_increasing_volume := false
    vwap_distance_pct := 1/2 }

/-- Analyzer instance (`VolumeAnalyzer.__init__`, pt_volume.py:139-143):
the two period settings plus the mutable rolling state (the bounded
`volume_history` deque and the append-only `price_volume_history`). -/
structure VolumeAnalyzer where
  sma_periods : ℕ
  ema_periods : ℕ
  volume_history : List ℚ
  price_volume_history : List (ℚ × ℚ)

/-- A freshly constructed analyzer: empty rolling state. -/
def VolumeAnalyzer.init (sma_periods ema_periods : ℕ) : VolumeAnalyzer :=
  ⟨sma_periods, ema_periods, [], []⟩

/-- The `maxlen` of the `volume_history` deque:
`max(sma_periods, ema_periods) * 2` (pt_volume.py:142). -/
def histMaxlen (a : VolumeAnalyzer) : ℕ := max a.sma_periods a.ema_periods * 2

/-- Appending to a `deque(maxlen=maxlen)`: append on the right, evict from the
left beyond `maxlen` elements. -/
def pushBounded (maxlen : ℕ) (h : List ℚ) (v : ℚ) : List ℚ :=
  let h2 := h ++ [v]
  h2.drop (h2.length - maxlen)

/-- `VolumeAnalyzer.calculate_sma` (pt_volume.py:145-149).  `values[-period:]`
is modelled as dropping all but the last `period` elements; every caller uses
`period = sma_periods ≥ 1` (for `period = 0` the Python source would divide by
zero). -/
def calculate_sma (values : List ℚ) (period : ℕ) : ℚ :=
  if values.length < period then
    (if values = [] then 0 else values.sum / values.length)
  else (values.drop (values.length - period)).sum / period

/-- `VolumeAnalyzer.calculate_ema` (pt_volume.py:151-158). -/
def calculate_ema (current : ℚ) (prev_ema : Option ℚ) (period : ℕ) : ℚ :=
  match prev_ema with
  | none => current
  | some p =>
      let multiplier : ℚ := 2 / (period + 1)
      current * multiplier + p * (1 - multiplier)

/-- `VolumeAnalyzer.calculate_vwap` (pt_volume.py:160-171). -/
def calculate_vwap (prices volumes : List ℚ) : ℚ :=
  if prices = [] ∨ volumes = [] ∨ prices.length ≠ volumes.length then 0
  else
    let total_pv := ((prices.zip volumes).map fun pv => pv.1 * pv.2).sum
    let total_volume := volumes.sum
    if total_volume > 0 then total_pv / total_volume else 0

/-- `VolumeAnalyzer.calculate_z_score` (pt_volume.py:173-177). -/
def calculate_z_score (value mean std : ℚ) : ℚ :=
  if std = 0 then 0 else (value - mean) / std

/-- `VolumeAnalyzer.detect_trend` (pt_volume.py:179-203).  The Python
parameter default is `min_periods = 5`; every caller uses that default. -/
def detect_trend (volumes : List ℚ) (min_periods : ℕ) : String :=
  if volumes.length < min_periods then "stable"
  else
    let recent := volumes.drop (volumes.length - min_periods)
    let avg_first_half := (recent.take (min_periods / 2)).sum / ((min_periods / 2 : ℕ) : ℚ)
    let avg_second_half :=
      (recent.drop (min_periods / 2)).sum / ((min_periods - min_periods / 2 : ℕ) : ℚ)
    let change_pct : ℚ :=
      if avg_first_half > 0 then (avg_second_half - avg_first_half) / avg_first_half * 100
      else 0
    if change_pct > 10 then "increasing"
    else if change_pct < -10 then "decreasing"
    else "stable"

/-- `VolumeAnalyzer.analyze_candle` (pt_volume.py:205-264): the single
mutation point.  Returns the metrics snapshot together with the updated
analyzer state.  `sqrtF` stands for `math.sqrt` (see the header). -/
def analyze_candle (sqrtF : ℚ → ℚ) (a : VolumeAnalyzer) (candle : CandleVolumeData)
    (prev_ema : Option ℚ) : VolumeMetrics × VolumeAnalyzer :=
  let volume_history := pushBounded (histMaxlen a) a.volume_history candle.volume
  let price_volume_history := a.price_volume_history ++ [(candle.close, candle.volume)]
  let volume_sma := calculate_sma volume_history a.sma_periods
  let volume_ema := calculate_ema candle.volume prev_ema a.ema_periods
  let vwap_window := min 50 price_volume_history.length
  let recent_pairs := price_volume_history.drop (price_volume_history.length - vwap_window)
  let vwap := calculate_vwap (recent_pairs.map Prod.fst) (recent_pairs.map Prod.snd)
  let volume_ratio := if volume_sma > 0 then candle.volume / volume_sma else 1
  let z_score :=
    if 10 ≤ volume_history.length then
      let mean_vol := volume_history.sum / (volume_history.length : ℚ)
      let std_vol :=
        sqrtF ((volume_history.map (fun v => (v - mean_vol) ^ 2)).sum / (volume_history.length : ℚ))
      calculate_z_score candle.volume mean_vol std_vol
    else 0
  let trend := detect_trend volume_history 5
  let an : Bool × String :=
    if z_score > 5/2 then (true, "high_volume")
    else if z_score < -(5/2) then (true, "low_volume")
    else (false, "")
  ({ timestamp := candle.timestamp
     volume := candle.volume
     volume_sma := volume_sma
     volume_ema := volume_ema
     vwap := vwap
     volume_ratio := volume_ratio
     z_score := z_score
     trend := trend
     anomaly := an.1
     anomaly_type := an.2 },
   { a with volume_history := volume_history, price_volume_history := price_volume_history })

/-- Feeding a candle sequence through `analyze_candle`, threading the previous
metrics' EMA forward exactly as `analyze_volume` (pt_volume.py:756-759) and
`backtest_volume` (pt_volume.py:831-833) do. -/
def analyzeSeq (sqrtF : ℚ → ℚ) (a : VolumeAnalyzer) (prev_ema : Option ℚ) :
    List CandleVolumeData → List VolumeMetrics
  | [] => []
  | c :: cs =>
      let p := analyze_candle sqrtF a c prev_ema
      p.1 :: analyzeSeq sqrtF p.2 (some p.1.volume_ema) cs

/-! Decimal rendering of numbers, for the f-strings inside reason texts. -/

/-- Decimal digits of `n` (most significant first); `fuel ≥ 1` always yields
at least one digit, and `fuel = n + 1` is always enough fuel. -/
def natToChars : ℕ → ℕ → List Char
  | 0, _ => []
  | fuel + 1, n =>
      if n < 10 then [Nat.digitChar n]
      else natToChars fuel (n / 10) ++ [Nat.digitChar (n % 10)]

/-- Decimal rendering of a natural number. -/
def natToStr (n : ℕ) : String := ⟨natToChars (n + 1) n⟩

/-- Decimal rendering of an integer. -/
def intToStr (i : ℤ) : String := (if i < 0 then "-" else "") ++ natToStr i.natAbs

/-- A single decimal digit as a string. -/
def digitStr (d : ℕ) : String := ⟨[Nat.digitChar d]⟩

/-- Python `f"{x:.2f}"` on the rational model: round `100·x` to the nearest
integer and render with two decimals.  (IEEE round-half-even ties are the only
possible divergence; no claim depends on the rendered digits.) -/
def fmt2 (q : ℚ) : String :=
  let n : ℤ := round (q * 100)
  let m : ℕ := n.natAbs
  (if n < 0 then "-" else "") ++ natToStr (m / 100) ++ "." ++ digitStr (m / 10 % 10)
    ++ digitStr (m % 10)

/-- Smallest `k ≤ fuel` with `den ∣ 10^k`, if any: the length of the exact
decimal expansion of a fraction with denominator `den`. -/
def decExpAux : ℕ → ℕ → ℕ → Option ℕ
  | 0, _, _ => none
  | fuel + 1, den, k => if 10 ^ k % den = 0 then some k else decExpAux fuel den (k + 1)

/-- Exactly `k` decimal digits of `m`, zero-padded on the left. -/
def padDigits : ℕ → ℕ → String
  | 0, _ => ""
  | k + 1, m => padDigits k (m / 10) ++ digitStr (m % 10)

/-- Python `f"{x}"` on a float config value, modelled on the rational: the
shortest exact decimal expansion when one exists (`0.5`, `3.0`, `-2.0`, …, as
`repr` prints the exact simple floats used in configs), and a fraction
rendering `num/den` otherwise.  Only its character set matters to any claim:
it never contains a letter or a space. -/
def fmtF (q : ℚ) : String :=
  let sign := if q.num < 0 then "-" else ""
  match decExpAux 40 q.den 0 with
  | some k =>
      if k = 0 then sign ++ natToStr q.num.natAbs ++ ".0"
      else
        let n := q.num.natAbs * (10 ^ k / q.den)
        sign ++ natToStr (n / 10 ^ k) ++ "." ++ padDigits k (n % 10 ^ k)
  | none => sign ++ natToStr q.num.natAbs ++ "/" ++ natToStr q.den

/-! Substring matching, for Python's `"needle" in reason` tests. -/

/-- Boolean test: `n` is a prefix of `h`. -/
def listPre : List Char → List Char → Bool
  | [], _ => true
  | _ :: _, [] => false
  | a :: as, b :: bs => a == b && listPre as bs

/-- Boolean test: `needle` occurs contiguously inside `hay` (Python `in`). -/
def listSub (needle : List Char) : List Char → Bool
  | [] => needle.isEmpty
  | c :: t => listPre needle (c :: t) || listSub needle t

/-- Python's `needle in hay` on strings. -/
def strSub (needle hay : String) : Bool := listSub needle.data hay.data

/-- Propositional form of substring occurrence. -/
def SubAt (n h : List Char) : Prop := ∃ a b, a ++ n ++ b = h

/-- `VolumeFilter.should_allow_entry` (pt_volume.py:328-380): the ordered
rule chain.  Returns `(allow, reason, confidence)`.  The running `confidence`
starts at 1.0 and each exit multiplies it by the rule's factor, exactly as in
the source (the allow path applies only rule 6's ×1.2 bonus, capped at 1). -/
def should_allow_entry (cfg : VolumeBacktestConfig) (metrics : VolumeMetrics)
    (price : ℚ) : Bool × String × ℚ :=
  let confidence : ℚ := 1
  if metrics.volume_ratio < cfg.min_volume_ratio then
    (false, "Volume too low: " ++ fmt2 metrics.volume_ratio ++ "x average (min: "
      ++ fmtF cfg.min_volume_ratio ++ "x)", confidence * (3/10))
  else if metrics.volume_ratio > cfg.max_volume_ratio then
    (false, "Volume spike anomaly: " ++ fmt2 metrics.volume_ratio ++ "x average (max: "
      ++ fmtF cfg.max_volume_ratio ++ "x)", confidence * (2/10))
  else if metrics.z_score > cfg.high_volume_zscore then
    (false, "High volume anomaly: z-score " ++ fmt2 metrics.z_score ++ " (threshold: "
      ++ fmtF cfg.high_volume_zscore ++ ")", confidence * (4/10))
  else if metrics.z_score < cfg.low_volume_zscore then
    (false, "Low volume anomaly: z-score " ++ fmt2 metrics.z_score ++ " (threshold: "
      ++ fmtF cfg.low_volume_zscore ++ ")", confidence * (3/10))
  else if cfg.require_increasing_volume && !(metrics.trend == "increasing") then
    (false, "Volume trend not increasing: " ++ metrics.trend, confidence * (6/10))
  else if metrics.vwap > 0 then
    let vwap_distance_pct := |(price - metrics.vwap) / metrics.vwap| * 100
    if vwap_distance_pct > cfg.vwap_distance_pct then
      (false, "Price too far from VWAP: " ++ fmt2 vwap_distance_pct ++ "% (max: "
        ++ fmtF cfg.vwap_distance_pct ++ "%)", confidence * (7/10))
    else
      (true, "Volume confirms entry: " ++ fmt2 metrics.volume_ratio ++ "x average, trend: "
        ++ metrics.trend, min (confidence * (12/10)) 1)
  else
    (true, "Volume confirms entry: " ++ fmt2 metrics.volume_ratio ++ "x average, trend: "
      ++ metrics.trend, min confidence 1)

/-- `VolumeFilter.make_decision` (pt_volume.py:382-408): wraps
`should_allow_entry` at `price = candle.close` and classifies the decision by
case-sensitive substring matching on the reason text. -/
def make_decision (cfg : VolumeBacktestConfig) (now : ℤ) (candle : CandleVolumeData)
    (metrics : VolumeMetrics) (coin : String) : VolumeDecision :=
  let r := should_allow_entry cfg metrics candle.close
  let decision :=
    if r.1 then "allow"
    else if strSub "too low" r.2.1 then "reject_low_volume"
    else if strSub "spike anomaly" r.2.1 || strSub "High volume anomaly" r.2.1 then
      "reject_high_volume"
    else if strSub "trend not" r.2.1 then "reject_no_trend"
    else "reject"
  { timestamp := now
    coin := coin
    price := candle.close
    volume := candle.volume
    metrics := metrics
    decision := decision
    reason := r.2.1
    confidence := r.2.2 }

/-- Python `int(count * p)` for the percentile fractions `p = num/den`.  The
floats 0.25, 0.5, 0.75 are exact dyadics, and for 0.9 the double's relative
error (≈2.2·10⁻¹⁷) cannot bridge the ≥ 1/10 gap between `0.9·count` and the
next integer for any realistic count, so truncation agrees with the exact
rational floor. -/
def pctIdx (count num den : ℕ) : ℕ := ⌊(count : ℚ) * ((num : ℚ) / (den : ℚ))⌋₊

/-- The period label `f"{first.date} to {last.date}"` (pt_volume.py:303).
Calendar-date rendering of the epoch timestamps is display-only (no claim
concerns it); the label is modelled by rendering the raw timestamps. -/
def periodLabel (first last : CandleVolumeData) : String :=
  intToStr first.timestamp ++ " to " ++ intToStr last.timestamp

/-- `VolumeAnalyzer.calculate_profile` (pt_volume.py:266-316): sort the
volumes, take mean/median/std/total and nearest-rank percentiles with the
small-sample fallbacks of lines 298-301.  The list indexings of the source are
always in range (proved below), so `getD _ 0` never takes its default. -/
def calculate_profile (sqrtF : ℚ → ℚ) : List CandleVolumeData → VolumeProfile
  | [] =>
      { period := "unknown"
        avg_volume := 0
        median_volume := 0
        p25_volume := 0
        p50_volume := 0
        p75_volume := 0
        p90_volume := 0
        std_volume := 0
        total_volume := 0
        candle_count := 0 }
  | c :: cs =>
      let volumes := (c :: cs).map CandleVolumeData.volume
      let volumes_sorted := List.insertionSort (· ≤ ·) volumes
      let count := volumes.length
      let avg := volumes.sum / (count : ℚ)
      let median := volumes_sorted.getD (count / 2) 0
      let total := volumes.sum
      let std := sqrtF ((volumes.map (fun v => (v - avg) ^ 2)).sum / (count : ℚ))
      let p25 := if 4 ≤ count then volumes_sorted.getD (pctIdx count 25 100) 0
        else volumes_sorted.getD 0 0
      let p50 := if 2 ≤ count then volumes_sorted.getD (pctIdx count 50 100) 0
        else volumes_sorted.getD 0 0
      let p75 := if 4 ≤ count then volumes_sorted.getD (pctIdx count 75 100) 0
        else volumes_sorted.getD (count - 1) 0
      let p90 := if 10 ≤ count then volumes_sorted.getD (pctIdx count 90 100) 0
        else volumes_sorted.getD (count - 1) 0
      { period := periodLabel c (cs.getLastD c)
        avg_volume := avg
        median_volume := median
        p25_volume := p25
        p50_volume := p50
        p75_volume := p75
        p90_volume := p90
        std_volume := std
        total_volume := total
        candle_count := count }

/-- Aggregated outcome of a backtest run (`backtest_volume`,
pt_volume.py:826-841): the three counters and the decision list. -/
structure BacktestTotals where
  total_entries : ℕ
  allowed_entries : ℕ
  rejected_entries : ℕ
  decisions : List VolumeDecision

/-- The evaluation loop of `backtest_volume` (pt_volume.py:831-841): feed each
remaining candle to the analyzer (threading the previous decision's EMA), get
a decision, and accumulate the counters. -/
def backtest_loop (sqrtF : ℚ → ℚ) (cfg : VolumeBacktestConfig) (now : ℤ) (coin : String) :
    VolumeAnalyzer → Option ℚ → BacktestTotals → List CandleVolumeData → BacktestTotals
  | _, _, acc, [] => acc
  | a, prev_ema, acc, c :: cs =>
      let p := analyze_candle sqrtF a c prev_ema
      let d := make_decision cfg now c p.1 coin
      backtest_loop sqrtF cfg now coin p.2 (some p.1.volume_ema)
        { total_entries := acc.total_entries + 1
          allowed_entries := acc.allowed_entries + (if d.decision = "allow" then 1 else 0)
          rejected_entries := acc.rejected_entries + (if d.decision = "allow" then 0 else 1)
          decisions := acc.decisions ++ [d] } cs

/-- The aggregation phase of `backtest_volume`: skip `warmup` leading candles
(`candles[args.warmup:]`, pt_volume.py:831) and run the loop from a fresh
analyzer with empty counters. -/
def backtest_volume (sqrtF : ℚ → ℚ) (cfg : VolumeBacktestConfig) (now : ℤ) (coin : String)
    (sma_periods ema_periods warmup : ℕ) (candles : List CandleVolumeData) : BacktestTotals :=
  backtest_loop sqrtF cfg now coin (VolumeAnalyzer.init sma_periods ema_periods) none
    ⟨0, 0, 0, []⟩ (candles.drop warmup)

/-- The percentage lines of the backtest report (pt_volume.py:862-868):
`allowed_entries / total_entries * 100` and
`rejected_entries / total_entries * 100`, computed unconditionally.  When
`total_entries = 0` the Python source raises `ZeroDivisionError`; that error
outcome is modelled as `none`. -/
def backtest_report_pcts (t : BacktestTotals) : Option (ℚ × ℚ) :=
  if t.total_entries = 0 then none
  else some ((t.allowed_entries : ℚ) / (t.total_entries : ℚ) * 100,
    (t.rejected_entries : ℚ) / (t.total_entries : ℚ) * 100)

/-- An arbitrary instantiation of the square-root parameter, used by closed
concrete statements; the fields those statements inspect do not depend on it. -/
def sqrt0 : ℚ → ℚ := fun _ => 0

/-- A candle with all price fields 100 and the given volume. -/
def constCandle (v : ℚ) : CandleVolumeData := ⟨0, 100, 100, 100, 100, v⟩

/-- The C2 scenario stream: 20 candles of volume 100 followed by one candle of
volume 500. -/
def scenario21 : List CandleVolumeData :=
  List.replicate 20 (constCandle 100) ++ [constCandle 500]

/-- Concrete metrics for witness statements: fails rule 1 (ratio 0.1) while
also exceeding the default high z-score threshold (z = 5). -/
def mLowHigh : VolumeMetrics :=
  { timestamp := 0, volume := 10, volume_sma := 100, volume_ema := 10, vwap := 0,
    volume_ratio := 1/10, z_score := 5, trend := "stable", anomaly := false,
    anomaly_type := "" }

/-- Concrete metrics for witness statements: passes rules 1-3 and fails rule 4
under the default thresholds (z = -5). -/
def mLowAnomaly : VolumeMetrics :=
  { timestamp := 0, volume := 100, volume_sma := 100, volume_ema := 100, vwap := 0,
    volume_ratio := 1, z_score := -5, trend := "stable", anomaly := false,
    anomaly_type := "" }

/-- Concrete metrics for witness statements: passes rules 1-5 and fails the
VWAP-distance rule at price 200 (vwap 100). -/
def mFarVwap : VolumeMetrics :=
  { timestamp := 0, volume := 100, volume_sma := 100, volume_ema := 100, vwap := 100,
    volume_ratio := 1, z_score := 0, trend := "stable", anomaly := false,
    anomaly_type := "" }

/-- A candle closing at 200, for the VWAP-distance witness. -/
def candle200 : CandleVolumeData := ⟨0, 200, 200, 200, 200, 100⟩

/-! General lemmas about substring matching. -/

lemma str_data_append (s t : String) : (s ++ t).data = s.data ++ t.data :=
  String.data_append s t

lemma listPre_iff (n : List Char) : ∀ h, listPre n h = true ↔ ∃ b, n ++ b = h := by
  induction n with
  | nil => intro h; simp [listPre]
  | cons a as ih =>
    intro h
    cases h with
    | nil => simp [listPre]
    | cons b bs =>
      simp only [listPre, Bool.and_eq_true, beq_iff_eq, ih, List.cons_append]
      constructor
      · rintro ⟨rfl, t, rfl⟩
        exact ⟨t, rfl⟩
      · rintro ⟨t, ht⟩
        injection ht with h1 h2
        exact ⟨h1, t, h2⟩

lemma listSub_iff (n : List Char) : ∀ h, listSub n h = true ↔ SubAt n h := by
  intro h
  induction h with
  | nil =>
    simp only [listSub, List.isEmpty_iff, SubAt]
    constructor
    · rintro rfl
      exact ⟨[], [], rfl⟩
    · rintro ⟨a, b, hab⟩
      rcases List.append_eq_nil.1 hab with ⟨h1, h2⟩
      exact (List.append_eq_nil.1 h1).2
  | cons c t ih =>
    simp only [listSub, Bool.or_eq_true, listPre_iff, ih]
    constructor
    · rintro (⟨b, hb⟩ | ⟨a, b, hb⟩)
      · exact ⟨[], b, by simpa using hb⟩
      · refine ⟨c :: a, b, ?_⟩
        simp only [List.cons_append, List.append_assoc] at hb ⊢
        rw [hb]
    · rintro ⟨a, b, hab⟩
      cases a with
      | nil => exact Or.inl ⟨b, hab⟩
      | cons x xs =>
        injection hab with h1 h2
        exact Or.inr ⟨xs, b, h2⟩

lemma listSub_eq_false_iff (n h : List Char) : listSub n h = false ↔ ¬ SubAt n h := by
  rw [← listSub_iff]
  cases listSub n h <;> simp

lemma subAt_drop (n : List Char) : ∀ t s : List Char, (∀ x ∈ t, x ∉ n) →
    SubAt n (t ++ s) → SubAt n s := by
  intro t
  induction t with
  | nil => intro s _ hs; simpa using hs
  | cons y t' ih =>
    intro s hd hsub
    obtain ⟨a, b, hab⟩ := hsub
    cases a with
    | nil =>
      cases n with
      | nil => exact ⟨[], s, by simp⟩
      | cons x xs =>
        rw [List.nil_append, List.cons_append, List.cons_append] at hab
        injection hab with h1 _
        subst h1
        exact absurd (List.mem_cons_self x xs) (hd x (List.mem_cons_self x t'))
    | cons z a' =>
      rw [List.cons_append, List.cons_append] at hab
      injection hab with _ h2
      exact ih s (fun x hx => hd x (List.mem_cons_of_mem _ hx)) ⟨a', b, h2⟩

lemma pre_confine (n : List Char) : ∀ (s1 t s2 : List Char), t ≠ [] →
    (∀ x ∈ t, x ∉ n) → (∃ b, n ++ b = s1 ++ (t ++ s2)) → ∃ b', n ++ b' = s1 := by
  induction n with
  | nil => intro s1 _ _ _ _ _; exact ⟨s1, rfl⟩
  | cons x xs ih =>
    intro s1 t s2 ht hd hpre
    obtain ⟨b, hb⟩ := hpre
    cases s1 with
    | nil =>
      cases t with
      | nil => exact absurd rfl ht
      | cons y t' =>
        rw [List.nil_append, List.cons_append, List.cons_append] at hb
        injection hb with h1 _
        subst h1
        exact absurd (List.mem_cons_self x xs) (hd x (List.mem_cons_self x t'))
    | cons z s1' =>
      rw [List.cons_append, List.cons_append] at hb
      injection hb with h1 h2
      obtain ⟨b', hb'⟩ :=
        ih s1' t s2 ht (fun c hc hmem => hd c hc (List.mem_cons_of_mem x hmem)) ⟨b, h2⟩
      exact ⟨b', by rw [List.cons_append, hb', h1]⟩

lemma subAt_split (n : List Char) : ∀ (s1 t s2 : List Char), t ≠ [] →
    (∀ x ∈ t, x ∉ n) → SubAt n (s1 ++ (t ++ s2)) → SubAt n s1 ∨ SubAt n s2 := by
  intro s1
  induction s1 with
  | nil =>
    intro t s2 ht hd h
    exact Or.inr (subAt_drop n t s2 hd (by simpa using h))
  | cons c s1' ih =>
    intro t s2 ht hd hsub
    obtain ⟨a, b, hab⟩ := hsub
    cases a with
    | nil =>
      rw [List.nil_append] at hab
      obtain ⟨b', hb'⟩ := pre_confine n (c :: s1') t s2 ht hd ⟨b, hab⟩
      exact Or.inl ⟨[], b', by simpa using hb'⟩
    | cons z a' =>
      rw [List.cons_append, List.cons_append] at hab
      injection hab with h1 h2
      rcases ih t s2 ht hd ⟨a', b, h2⟩ with h | h
      · obtain ⟨p, q, hpq⟩ := h
        refine Or.inl ⟨c :: p, q, ?_⟩
        simp only [List.cons_append, List.append_assoc] at hpq ⊢
        rw [hpq]
      · exact Or.inr h

lemma subAt_extend_right (n s r : List Char) (h : SubAt n s) : SubAt n (s ++ r) := by
  obtain ⟨a, b, hab⟩ := h
  exact ⟨a, b ++ r, by rw [← hab]; simp⟩

/-- A reason string of shape `s1 ++ t1 ++ s2 ++ t2 ++ s3` where `t1, t2` are
nonempty rendered numbers whose characters never occur in `needle` contains
`needle` in none of its positions as soon as the three static pieces do not. -/
lemma strSub_sandwich_false (needle s1 s2 s3 : String) (t1 t2 : String)
    (ht1 : t1.data ≠ []) (ht2 : t2.data ≠ [])
    (hd1 : ∀ x ∈ t1.data, x ∉ needle.data) (hd2 : ∀ x ∈ t2.data, x ∉ needle.data)
    (h1 : listSub needle.data s1.data = false) (h2 : listSub needle.data s2.data = false)
    (h3 : listSub needle.data s3.data = false) :
    strSub needle (s1 ++ t1 ++ s2 ++ t2 ++ s3) = false := by
  rw [strSub, listSub_eq_false_iff]
  have hdata : (s1 ++ t1 ++ s2 ++ t2 ++ s3).data
      = s1.data ++ (t1.data ++ (s2.data ++ (t2.data ++ s3.data))) := by
    simp [str_data_append]
  rw [hdata]
  intro hsub
  rcases subAt_split needle.data s1.data t1.data _ ht1 hd1 hsub with h | h
  · exact absurd ((listSub_iff _ _).2 h) (by simp [h1])
  · rcases subAt_split needle.data s2.data t2.data s3.data ht2 hd2 h with h' | h'
    · exact absurd ((listSub_iff _ _).2 h') (by simp [h2])
    · exact absurd ((listSub_iff _ _).2 h') (by simp [h3])

lemma strSub_prefix_true (needle s1 rest : String)
    (h : listSub needle.data s1.data = true) : strSub needle (s1 ++ rest) = true := by
  rw [strSub, listSub_iff, str_data_append]
  exact subAt_extend_right _ _ _ ((listSub_iff _ _).1 h)

/-! Character sets of the number renderers. -/

/-- Every character a rendered number can contain: sign, point, slash, digits. -/
def fmtChars : List Char :=
  ['-', '.', '/', '0', '1', '2', '3', '4', '5', '6', '7', '8', '9']

lemma digitChar_mem_fmtChars : ∀ d, d < 10 → Nat.digitChar d ∈ fmtChars := by decide

lemma str_append_chars {P : Char → Prop} {s t : String}
    (hs : ∀ c ∈ s.data, P c) (ht : ∀ c ∈ t.data, P c) : ∀ c ∈ (s ++ t).data, P c := by
  intro c hc
  rw [str_data_append] at hc
  rcases List.mem_append.1 hc with h | h
  · exact hs c h
  · exact ht c h

lemma natToChars_chars : ∀ fuel n, ∀ c ∈ natToChars fuel n, c ∈ fmtChars := by
  intro fuel
  induction fuel with
  | zero => intro n c hc; simp [natToChars] at hc
  | succ fuel ih =>
    intro n c hc
    simp only [natToChars] at hc
    by_cases h : n < 10
    · rw [if_pos h] at hc
      simp only [List.mem_singleton] at hc
      subst hc
      exact digitChar_mem_fmtChars n h
    · rw [if_neg h] at hc
      rcases List.mem_append.1 hc with h' | h'
      · exact ih _ c h'
      · simp only [List.mem_singleton] at h'
        subst h'
        exact digitChar_mem_fmtChars _ (Nat.mod_lt _ (by norm_num))

lemma natToStr_chars (n : ℕ) : ∀ c ∈ (natToStr n).data, c ∈ fmtChars :=
  natToChars_chars (n + 1) n

lemma digitStr_chars (d : ℕ) (h : d < 10) : ∀ c ∈ (digitStr d).data, c ∈ fmtChars := by
  intro c hc
  simp only [digitStr, List.mem_singleton] at hc
  subst hc
  exact digitChar_mem_fmtChars d h

lemma ite_sign_chars (b : Bool) :
    ∀ c ∈ (if b = true then "-" else "").data, c ∈ fmtChars := by
  cases b <;> decide

lemma padDigits_chars : ∀ k m, ∀ c ∈ (padDigits k m).data, c ∈ fmtChars := by
  intro k
  induction k with
  | zero => intro m c hc; simp [padDigits] at hc
  | succ k ih =>
    intro m
    simp only [padDigits]
    exact str_append_chars (ih (m / 10)) (digitStr_chars _ (Nat.mod_lt _ (by norm_num)))

lemma fmt2_chars (q : ℚ) : ∀ c ∈ (fmt2 q).data, c ∈ fmtChars := by
  simp only [fmt2]
  refine str_append_chars (str_append_chars (str_append_chars (str_append_chars ?_ ?_) ?_) ?_) ?_
  · intro c hc
    split at hc
    · simp only [show ("-" : String).data = ['-'] from rfl, List.mem_singleton] at hc
      subst hc
      decide
    · simp at hc
  · exact natToStr_chars _
  · intro c hc
    simp only [show ("." : String).data = ['.'] from rfl, List.mem_singleton] at hc
    subst hc
    decide
  · exact digitStr_chars _ (Nat.mod_lt _ (by norm_num))
  · exact digitStr_chars _ (Nat.mod_lt _ (by norm_num))

lemma fmtF_chars (q : ℚ) : ∀ c ∈ (fmtF q).data, c ∈ fmtChars := by
  have hsign : ∀ c ∈ (if q.num < 0 then "-" else "").data, c ∈ fmtChars := by
    split
    · intro c hc
      simp only [show ("-" : String).data = ['-'] from rfl, List.mem_singleton] at hc
      subst hc
      decide
    · intro c hc
      simp at hc
  have hdot : ∀ c ∈ ("." : String).data, c ∈ fmtChars := by decide
  have hslash : ∀ c ∈ ("/" : String).data, c ∈ fmtChars := by decide
  have hdotzero : ∀ c ∈ (".0" : String).data, c ∈ fmtChars := by decide
  rcases hE : decExpAux 40 q.den 0 with _ | k
  · simp only [fmtF, hE]
    exact str_append_chars
      (str_append_chars (str_append_chars hsign (natToStr_chars _)) hslash)
      (natToStr_chars _)
  · simp only [fmtF, hE]
    by_cases hk : k = 0
    · rw [if_pos hk]
      exact str_append_chars (str_append_chars hsign (natToStr_chars _)) hdotzero
    · rw [if_neg hk]
      exact str_append_chars
        (str_append_chars (str_append_chars hsign (natToStr_chars _)) hdot)
        (padDigits_chars _ _)

lemma str_append_data_ne_nil_right (s t : String) (h : t.data ≠ []) :
    (s ++ t).data ≠ [] := by
  rw [str_data_append]
  intro hc
  exact h (List.append_eq_nil.1 hc).2

lemma digitStr_data_ne_nil (d : ℕ) : (digitStr d).data ≠ [] := by
  simp [digitStr]

lemma fmt2_data_ne_nil (q : ℚ) : (fmt2 q).data ≠ [] := by
  simp only [fmt2]
  exact str_append_data_ne_nil_right _ _ (digitStr_data_ne_nil _)

lemma natToChars_ne_nil (fuel n : ℕ) : natToChars (fuel + 1) n ≠ [] := by
  simp only [natToChars]
  split
  · simp
  · intro h
    exact (digitStr_data_ne_nil (n % 10)) (by simpa [digitStr] using (List.append_eq_nil.1 h).2)

lemma natToStr_data_ne_nil (n : ℕ) : (natToStr n).data ≠ [] := natToChars_ne_nil n n

lemma padDigits_data_ne_nil (k m : ℕ) (hk : k ≠ 0) : (padDigits k m).data ≠ [] := by
  cases k with
  | zero => exact absurd rfl hk
  | succ k =>
    simp only [padDigits]
    exact str_append_data_ne_nil_right _ _ (digitStr_data_ne_nil _)

lemma fmtF_data_ne_nil (q : ℚ) : (fmtF q).data ≠ [] := by
  rcases hE : decExpAux 40 q.den 0 with _ | k
  · simp only [fmtF, hE]
    exact str_append_data_ne_nil_right _ _ (natToStr_data_ne_nil _)
  · simp only [fmtF, hE]
    by_cases hk : k = 0
    · rw [if_pos hk]
      exact str_append_data_ne_nil_right _ _ (by decide)
    · rw [if_neg hk]
      exact str_append_data_ne_nil_right _ _ (padDigits_data_ne_nil k _ hk)

/-! Lemmas about sorted indexing and percentile indices. -/

lemma sorted_getD_mono {l : List ℚ} (hs : l.Sorted (· ≤ ·)) {i j : ℕ}
    (hij : i ≤ j) (hj : j < l.length) : l.getD i 0 ≤ l.getD j 0 := by
  have hi : i < l.length := lt_of_le_of_lt hij hj
  rw [List.getD_eq_getElem l 0 hi, List.getD_eq_getElem l 0 hj]
  exact hs.rel_get_of_le (a := ⟨i, hi⟩) (b := ⟨j, hj⟩) (Fin.mk_le_mk.mpr hij)

lemma pctIdx_eq (c num den : ℕ) : pctIdx c num den = c * num / den := by
  unfold pctIdx
  rw [show (c : ℚ) * ((num : ℚ) / (den : ℚ)) = ((c * num : ℕ) : ℚ) / ((den : ℕ) : ℚ) by
    push_cast; ring]
  rw [Nat.floor_div_nat, Nat.floor_natCast]

lemma percentile_chain (l : List ℚ) (count : ℕ) (hs : l.Sorted (· ≤ ·))
    (hlen : l.length = count) (hc : 1 ≤ count) :
    (if 4 ≤ count then l.getD (pctIdx count 25 100) 0 else l.getD 0 0)
      ≤ (if 2 ≤ count then l.getD (pctIdx count 50 100) 0 else l.getD 0 0) ∧
    (if 2 ≤ count then l.getD (pctIdx count 50 100) 0 else l.getD 0 0)
      ≤ (if 4 ≤ count then l.getD (pctIdx count 75 100) 0 else l.getD (count - 1) 0) ∧
    (if 4 ≤ count then l.getD (pctIdx count 75 100) 0 else l.getD (count - 1) 0)
      ≤ (if 10 ≤ count then l.getD (pctIdx count 90 100) 0 else l.getD (count - 1) 0) := by
  have h25 : pctIdx count 25 100 = count * 25 / 100 := pctIdx_eq _ _ _
  have h50 : pctIdx count 50 100 = count * 50 / 100 := pctIdx_eq _ _ _
  have h75 : pctIdx count 75 100 = count * 75 / 100 := pctIdx_eq _ _ _
  have h90 : pctIdx count 90 100 = count * 90 / 100 := pctIdx_eq _ _ _
  simp only [h25, h50, h75, h90]
  refine ⟨?_, ?_, ?_⟩ <;>
    split_ifs <;>
      exact sorted_getD_mono hs (by omega) (by rw [hlen]; omega)

/-! Percentage-change characterizations for `detect_trend`. -/

lemma change_gt_iff (x y : ℚ) (hy : 0 < y) :
    (10 : ℚ) < (x - y) / y * 100 ↔ y * (11/10) < x := by
  rw [div_mul_eq_mul_div, lt_div_iff hy]
  constructor <;> intro h <;> nlinarith

lemma change_lt_iff (x y : ℚ) (hy : 0 < y) : (x - y) / y * 100 < -10 ↔ x < y * (9/10) := by
  rw [div_mul_eq_mul_div, div_lt_iff hy]
  constructor <;> intro h <;> nlinarith

/-- C6: for every non-empty candle list, the profile returned by
`calculate_profile` satisfies `p25 ≤ p50 ≤ p75 ≤ p90`, across all the
small-sample fallback branches (`<4` samples for p25/p75, `<2` for p50,
`<10` for p90). -/
theorem C6_profile_percentiles_monotone (sqrtF : ℚ → ℚ)
    (candles : List CandleVolumeData) (h : candles ≠ []) :
    (calculate_profile sqrtF candles).p25_volume ≤ (calculate_profile sqrtF candles).p50_volume ∧
    (calculate_profile sqrtF candles).p50_volume ≤ (calculate_profile sqrtF candles).p75_volume ∧
    (calculate_profile sqrtF candles).p75_volume ≤ (calculate_profile sqrtF candles).p90_volume := by
  match candles with
  | [] => exact absurd rfl h
  | c :: cs =>
    simp only [calculate_profile]
    exact percentile_chain _ _ (List.sorted_insertionSort _ _)
      (List.length_insertionSort _ _) (by simp)

/-- Witness for C6: a concrete one-candle list. -/
theorem C6_witness :
    ([constCandle 100] ≠ ([] : List CandleVolumeData)) ∧
    (calculate_profile sqrt0 [constCandle 100]).p25_volume
      ≤ (calculate_profile sqrt0 [constCandle 100]).p50_volume ∧
    (calculate_profile sqrt0 [constCandle 100]).p50_volume
      ≤ (calculate_profile sqrt0 [constCandle 100]).p75_volume ∧
    (calculate_profile sqrt0 [constCandle 100]).p75_volume
      ≤ (calculate_profile sqrt0 [constCandle 100]).p90_volume :=
  ⟨by simp, C6_profile_percentiles_monotone sqrt0 [constCandle 100] (by simp)⟩

/-- C7: `calculate_profile` on the empty candle list returns the all-zero
profile with `period = "unknown"` and `candle_count = 0`, without any error
path. -/
theorem C7_empty_profile (sqrtF : ℚ → ℚ) :
    calculate_profile sqrtF [] =
      { period := "unknown"
        avg_volume := 0
        median_volume := 0
        p25_volume := 0
        p50_volume := 0
        p75_volume := 0
        p90_volume := 0
        std_volume := 0
        total_volume := 0
        candle_count := 0 } := rfl

/-- C5: `detect_trend` returns "stable" below 5 samples; with at least 5
samples it compares the mean of the first 2 of the most recent 5 against the
mean of the last 3, classifying "increasing" above +10%, "decreasing" below
−10%, "stable" otherwise (stated here for a positive first-half mean, the case
in which a percentage change is defined; C10 covers the non-positive case);
and [100,100,100,200,200] yields "increasing". -/
theorem C5_detect_trend (vshort vlong : List ℚ)
    (hshort : vshort.length < 5) (hlong : 5 ≤ vlong.length)
    (hpos : 0 < ((vlong.drop (vlong.length - 5)).take 2).sum / 2) :
    detect_trend vshort 5 = "stable" ∧
    detect_trend vlong 5 =
      (if ((vlong.drop (vlong.length - 5)).take 2).sum / 2 * (11/10)
          < ((vlong.drop (vlong.length - 5)).drop 2).sum / 3 then "increasing"
       else if ((vlong.drop (vlong.length - 5)).drop 2).sum / 3
          < ((vlong.drop (vlong.length - 5)).take 2).sum / 2 * (9/10) then "decreasing"
       else "stable") ∧
    detect_trend [100, 100, 100, 200, 200] 5 = "increasing" := by
  refine ⟨?_, ?_, ?_⟩
  · simp only [detect_trend, if_pos hshort]
  · simp only [detect_trend]
    rw [if_neg (not_lt.2 hlong)]
    norm_num
    have hpos' : 0 < (List.take 2 (List.drop (vlong.length - 5) vlong)).sum := by linarith
    rw [if_pos hpos']
    simp only [change_gt_iff _ _ hpos, change_lt_iff _ _ hpos]
  · norm_num [detect_trend]

/-- Witness for C5 at concrete inputs. -/
theorem C5_witness :
    ([0, 0, 0] : List ℚ).length < 5 ∧
    5 ≤ ([100, 100, 100, 200, 200] : List ℚ).length ∧
    0 < ((([100, 100, 100, 200, 200] : List ℚ).drop
      (([100, 100, 100, 200, 200] : List ℚ).length - 5)).take 2).sum / 2 ∧
    detect_trend [0, 0, 0] 5 = "stable" ∧
    detect_trend [100, 100, 100, 200, 200] 5 = "increasing" := by
  have h := C5_detect_trend [0, 0, 0] [100, 100, 100, 200, 200]
    (by norm_num) (by norm_num) (by norm_num)
  exact ⟨by norm_num, by norm_num, by norm_num, h.1, h.2.2⟩

/-- C10: with at least 5 samples and a most-recent-5 window whose first half
(2 samples) has mean 0, `detect_trend` returns "stable" regardless of the
second half, because the percentage change is defined as 0 when the first-half
mean is not positive. -/
theorem C10_trend_zero_first_half (vols : List ℚ) (h5 : 5 ≤ vols.length)
    (h0 : ((vols.drop (vols.length - 5)).take 2).sum / 2 = 0) :
    detect_trend vols 5 = "stable" := by
  simp only [detect_trend]
  rw [if_neg (not_lt.2 h5)]
  norm_num
  rw [h0]
  norm_num

/-- Witness for C10 at a concrete input with zero leading volumes. -/
theorem C10_witness :
    5 ≤ ([0, 0, 7, 7, 7] : List ℚ).length ∧
    ((([0, 0, 7, 7, 7] : List ℚ).drop (([0, 0, 7, 7, 7] : List ℚ).length - 5)).take 2).sum / 2
      = 0 ∧
    detect_trend [0, 0, 7, 7, 7] 5 = "stable" :=
  ⟨by norm_num, by norm_num,
    C10_trend_zero_first_half [0, 0, 7, 7, 7] (by norm_num) (by norm_num)⟩

/-! Disjointness of rendered numbers from the classification needles. -/

lemma fmtChars_tooLow : ∀ x ∈ fmtChars, x ∉ ("too low" : String).data := by decide

lemma fmtChars_spike : ∀ x ∈ fmtChars, x ∉ ("spike anomaly" : String).data := by decide

lemma fmtChars_highAnomaly : ∀ x ∈ fmtChars, x ∉ ("High volume anomaly" : String).data := by
  decide

lemma fmtChars_trendNot : ∀ x ∈ fmtChars, x ∉ ("trend not" : String).data := by decide

lemma fmt2_disjoint (q : ℚ) (needle : String)
    (hn : ∀ x ∈ fmtChars, x ∉ needle.data) : ∀ x ∈ (fmt2 q).data, x ∉ needle.data :=
  fun x hx => hn x (fmt2_chars q x hx)

lemma fmtF_disjoint (q : ℚ) (needle : String)
    (hn : ∀ x ∈ fmtChars, x ∉ needle.data) : ∀ x ∈ (fmtF q).data, x ∉ needle.data :=
  fun x hx => hn x (fmtF_chars q x hx)

/-- A needle that occurs in the leading static piece of a reason string occurs
in the whole reason string. -/
lemma strSub_first_static_true (needle s1 t1 s2 t2 s3 : String)
    (h : listSub needle.data s1.data = true) :
    strSub needle (s1 ++ t1 ++ s2 ++ t2 ++ s3) = true := by
  rw [strSub, listSub_iff]
  have hdata : (s1 ++ t1 ++ s2 ++ t2 ++ s3).data
      = s1.data ++ (t1.data ++ (s2.data ++ (t2.data ++ s3.data))) := by
    simp [str_data_append]
  rw [hdata]
  exact subAt_extend_right _ _ _ ((listSub_iff _ _).1 h)

/-- C3: when rule 1 (ratio below minimum) and rule 3 (z-score above the high
threshold) fail simultaneously, `should_allow_entry` returns rule 1's
rejection: reason "Volume too low: …" (which contains "too low") and
confidence 1 × 0.3 = 0.3, not rule 3's reason. -/
theorem C3_rule1_wins (cfg : VolumeBacktestConfig) (m : VolumeMetrics) (price : ℚ)
    (h1 : m.volume_ratio < cfg.min_volume_ratio)
    (h3 : cfg.high_volume_zscore < m.z_score) :
    should_allow_entry cfg m price =
      (false, "Volume too low: " ++ fmt2 m.volume_ratio ++ "x average (min: "
        ++ fmtF cfg.min_volume_ratio ++ "x)", 3/10) ∧
    strSub "too low" ("Volume too low: " ++ fmt2 m.volume_ratio ++ "x average (min: "
      ++ fmtF cfg.min_volume_ratio ++ "x)") = true ∧
    ("Volume too low: " ++ fmt2 m.volume_ratio ++ "x average (min: "
      ++ fmtF cfg.min_volume_ratio ++ "x)")
      ≠ ("High volume anomaly: z-score " ++ fmt2 m.z_score ++ " (threshold: "
        ++ fmtF cfg.high_volume_zscore ++ ")") := by
  refine ⟨?_, ?_, ?_⟩
  · simp only [should_allow_entry]
    rw [if_pos h1]
    norm_num
  · exact strSub_first_static_true "too low" "Volume too low: " (fmt2 m.volume_ratio)
      "x average (min: " (fmtF cfg.min_volume_ratio) "x)" (by decide)
  · intro hcontra
    have hh := congrArg (fun s => s.data.head?) hcontra
    simp only [str_data_append, List.cons_append, List.head?_cons, Option.some.injEq] at hh
    exact absurd hh (by decide)

/-- Witness for C3 at a concrete metrics/config. -/
theorem C3_witness :
    mLowHigh.volume_ratio < defaultConfig.min_volume_ratio ∧
    defaultConfig.high_volume_zscore < mLowHigh.z_score ∧
    should_allow_entry defaultConfig mLowHigh 100 =
      (false, "Volume too low: " ++ fmt2 mLowHigh.volume_ratio ++ "x average (min: "
        ++ fmtF defaultConfig.min_volume_ratio ++ "x)", 3/10) := by
  have h := C3_rule1_wins defaultConfig mLowHigh 100
    (by norm_num [mLowHigh, defaultConfig]) (by norm_num [mLowHigh, defaultConfig])
  exact ⟨by norm_num [mLowHigh, defaultConfig], by norm_num [mLowHigh, defaultConfig], h.1⟩

/-- C9: `make_decision` classifies by case-sensitive substring matching, so a
rejection by rule 4 (reason "Low volume anomaly: …") and a rejection by rule 6
(reason "Price too far from VWAP: …") both fall through every specific
category and return the generic "reject". -/
theorem C9_generic_reject (cfg cfg' : VolumeBacktestConfig) (m m' : VolumeMetrics)
    (now now' : ℤ) (c c' : CandleVolumeData) (coin coin' : String)
    (hA1 : ¬ m.volume_ratio < cfg.min_volume_ratio)
    (hA2 : ¬ m.volume_ratio > cfg.max_volume_ratio)
    (hA3 : ¬ m.z_score > cfg.high_volume_zscore)
    (hA4 : m.z_score < cfg.low_volume_zscore)
    (hB1 : ¬ m'.volume_ratio < cfg'.min_volume_ratio)
    (hB2 : ¬ m'.volume_ratio > cfg'.max_volume_ratio)
    (hB3 : ¬ m'.z_score > cfg'.high_volume_zscore)
    (hB4 : ¬ m'.z_score < cfg'.low_volume_zscore)
    (hB5 : (cfg'.require_increasing_volume && !(m'.trend == "increasing")) = false)
    (hB6 : m'.vwap > 0)
    (hB7 : |(c'.close - m'.vwap) / m'.vwap| * 100 > cfg'.vwap_distance_pct) :
    (make_decision cfg now c m coin).decision = "reject" ∧
    (make_decision cfg' now' c' m' coin').decision = "reject" := by
  constructor
  · have heq : should_allow_entry cfg m c.close
        = (false, "Low volume anomaly: z-score " ++ fmt2 m.z_score ++ " (threshold: "
            ++ fmtF cfg.low_volume_zscore ++ ")", 1 * (3/10)) := by
      simp only [should_allow_entry]
      rw [if_neg hA1, if_neg hA2, if_neg hA3, if_pos hA4]
    have hs1 : strSub "too low" ("Low volume anomaly: z-score " ++ fmt2 m.z_score
        ++ " (threshold: " ++ fmtF cfg.low_volume_zscore ++ ")") = false :=
      strSub_sandwich_false _ _ _ _ _ _ (fmt2_data_ne_nil _) (fmtF_data_ne_nil _)
        (fmt2_disjoint _ _ fmtChars_tooLow) (fmtF_disjoint _ _ fmtChars_tooLow)
        (by decide) (by decide) (by decide)
    have hs2 : strSub "spike anomaly" ("Low volume anomaly: z-score " ++ fmt2 m.z_score
        ++ " (threshold: " ++ fmtF cfg.low_volume_zscore ++ ")") = false :=
      strSub_sandwich_false _ _ _ _ _ _ (fmt2_data_ne_nil _) (fmtF_data_ne_nil _)
        (fmt2_disjoint _ _ fmtChars_spike) (fmtF_disjoint _ _ fmtChars_spike)
        (by decide) (by decide) (by decide)
    have hs3 : strSub "High volume anomaly" ("Low volume anomaly: z-score "
        ++ fmt2 m.z_score ++ " (threshold: " ++ fmtF cfg.low_volume_zscore ++ ")") = false :=
      strSub_sandwich_false _ _ _ _ _ _ (fmt2_data_ne_nil _) (fmtF_data_ne_nil _)
        (fmt2_disjoint _ _ fmtChars_highAnomaly) (fmtF_disjoint _ _ fmtChars_highAnomaly)
        (by decide) (by decide) (by decide)
    have hs4 : strSub "trend not" ("Low volume anomaly: z-score " ++ fmt2 m.z_score
        ++ " (threshold: " ++ fmtF cfg.low_volume_zscore ++ ")") = false :=
      strSub_sandwich_false _ _ _ _ _ _ (fmt2_data_ne_nil _) (fmtF_data_ne_nil _)
        (fmt2_disjoint _ _ fmtChars_trendNot) (fmtF_disjoint _ _ fmtChars_trendNot)
        (by decide) (by decide) (by decide)
    simp [make_decision, heq, hs1, hs2, hs3, hs4]
  · have heq : should_allow_entry cfg' m' c'.close
        = (false, "Price too far from VWAP: " ++ fmt2 (|(c'.close - m'.vwap) / m'.vwap| * 100)
            ++ "% (max: " ++ fmtF cfg'.vwap_distance_pct ++ "%)", 1 * (7/10)) := by
      simp only [should_allow_entry]
      rw [if_neg hB1, if_neg hB2, if_neg hB3, if_neg hB4,
        if_neg (by simp [hB5] : ¬ (cfg'.require_increasing_volume
          && !(m'.trend == "increasing")) = true), if_pos hB6, if_pos hB7]
    have hs1 : strSub "too low" ("Price too far from VWAP: "
        ++ fmt2 (|(c'.close - m'.vwap) / m'.vwap| * 100) ++ "% (max: "
        ++ fmtF cfg'.vwap_distance_pct ++ "%)") = false :=
      strSub_sandwich_false _ _ _ _ _ _ (fmt2_data_ne_nil _) (fmtF_data_ne_nil _)
        (fmt2_disjoint _ _ fmtChars_tooLow) (fmtF_disjoint _ _ fmtChars_tooLow)
        (by decide) (by decide) (by decide)
    have hs2 : strSub "spike anomaly" ("Price too far from VWAP: "
        ++ fmt2 (|(c'.close - m'.vwap) / m'.vwap| * 100) ++ "% (max: "
        ++ fmtF cfg'.vwap_distance_pct ++ "%)") = false :=
      strSub_sandwich_false _ _ _ _ _ _ (fmt2_data_ne_nil _) (fmtF_data_ne_nil _)
        (fmt2_disjoint _ _ fmtChars_spike) (fmtF_disjoint _ _ fmtChars_spike)
        (by decide) (by decide) (by decide)
    have hs3 : strSub "High volume anomaly" ("Price too far from VWAP: "
        ++ fmt2 (|(c'.close - m'.vwap) / m'.vwap| * 100) ++ "% (max: "
        ++ fmtF cfg'.vwap_distance_pct ++ "%)") = false :=
      strSub_sandwich_false _ _ _ _ _ _ (fmt2_data_ne_nil _) (fmtF_data_ne_nil _)
        (fmt2_disjoint _ _ fmtChars_highAnomaly) (fmtF_disjoint _ _ fmtChars_highAnomaly)
        (by decide) (by decide) (by decide)
    have hs4 : strSub "trend not" ("Price too far from VWAP: "
        ++ fmt2 (|(c'.close - m'.vwap) / m'.vwap| * 100) ++ "% (max: "
        ++ fmtF cfg'.vwap_distance_pct ++ "%)") = false :=
      strSub_sandwich_false _ _ _ _ _ _ (fmt2_data_ne_nil _) (fmtF_data_ne_nil _)
        (fmt2_disjoint _ _ fmtChars_trendNot) (fmtF_disjoint _ _ fmtChars_trendNot)
        (by decide) (by decide) (by decide)
    simp [make_decision, heq, hs1, hs2, hs3, hs4]

/-- Witness for C9 at concrete metrics for both rejection shapes. -/
theorem C9_witness :
    mLowAnomaly.z_score < defaultConfig.low_volume_zscore ∧
    mFarVwap.vwap > 0 ∧
    |(candle200.close - mFarVwap.vwap) / mFarVwap.vwap| * 100
      > defaultConfig.vwap_distance_pct ∧
    (make_decision defaultConfig 0 (constCandle 100) mLowAnomaly "BTC").decision = "reject" ∧
    (make_decision defaultConfig 0 candle200 mFarVwap "BTC").decision = "reject" := by
  have h := C9_generic_reject defaultConfig defaultConfig mLowAnomaly mFarVwap 0 0
    (constCandle 100) candle200 "BTC" "BTC"
    (by norm_num [mLowAnomaly, defaultConfig])
    (by norm_num [mLowAnomaly, defaultConfig])
    (by norm_num [mLowAnomaly, defaultConfig])
    (by norm_num [mLowAnomaly, defaultConfig])
    (by norm_num [mFarVwap, defaultConfig])
    (by norm_num [mFarVwap, defaultConfig])
    (by norm_num [mFarVwap, defaultConfig])
    (by norm_num [mFarVwap, defaultConfig])
    (by norm_num [mFarVwap, defaultConfig])
    (by norm_num [mFarVwap, defaultConfig])
    (by norm_num [mFarVwap, candle200, defaultConfig])
  exact ⟨by norm_num [mLowAnomaly, defaultConfig], by norm_num [mFarVwap],
    by norm_num [mFarVwap, candle200, defaultConfig], h.1, h.2⟩

/-- C4: any metrics snapshot computed while the rolling window holds fewer
than 10 volume samples has z_score = 0, no anomaly flag and an empty
anomaly type, for every analyzer state and every square-root function. -/
theorem C4_small_window_no_anomaly (sqrtF : ℚ → ℚ) (a : VolumeAnalyzer)
    (c : CandleVolumeData) (prev_ema : Option ℚ)
    (h : (analyze_candle sqrtF a c prev_ema).2.volume_history.length < 10) :
    (analyze_candle sqrtF a c prev_ema).1.z_score = 0 ∧
    (analyze_candle sqrtF a c prev_ema).1.anomaly = false ∧
    (analyze_candle sqrtF a c prev_ema).1.anomaly_type = "" := by
  have hlen : (pushBounded (histMaxlen a) a.volume_history c.volume).length < 10 := by
    simpa [analyze_candle] using h
  simp only [analyze_candle]
  rw [if_neg (by omega :
    ¬ 10 ≤ (pushBounded (histMaxlen a) a.volume_history c.volume).length)]
  norm_num

/-- Witness for C4: the very first candle of a fresh analyzer. -/
theorem C4_witness :
    (analyze_candle sqrt0 (VolumeAnalyzer.init 20 20) (constCandle 100)
      none).2.volume_history.length < 10 ∧
    (analyze_candle sqrt0 (VolumeAnalyzer.init 20 20) (constCandle 100) none).1.z_score = 0 ∧
    (analyze_candle sqrt0 (VolumeAnalyzer.init 20 20) (constCandle 100) none).1.anomaly
      = false ∧
    (analyze_candle sqrt0 (VolumeAnalyzer.init 20 20) (constCandle 100) none).1.anomaly_type
      = "" := by
  have hl : (analyze_candle sqrt0 (VolumeAnalyzer.init 20 20) (constCandle 100)
      none).2.volume_history.length < 10 := by
    norm_num [analyze_candle, VolumeAnalyzer.init, pushBounded, histMaxlen, constCandle]
  obtain ⟨h1, h2, h3⟩ := C4_small_window_no_anomaly sqrt0 _ _ _ hl
  exact ⟨hl, h1, h2, h3⟩

/-! Scale invariance of the volume ratio. -/

lemma sum_map_mul (k : ℚ) (l : List ℚ) : (l.map (fun v => k * v)).sum = k * l.sum := by
  induction l with
  | nil => simp
  | cons x xs ih => simp [ih, mul_add]

lemma calculate_sma_scale (k : ℚ) (values : List ℚ) (period : ℕ) :
    calculate_sma (values.map (fun v => k * v)) period = k * calculate_sma values period := by
  simp only [calculate_sma, List.length_map]
  by_cases hlt : values.length < period
  · rw [if_pos hlt, if_pos hlt]
    by_cases hnil : values = []
    · subst hnil
      simp
    · rw [if_neg (by simpa using hnil), if_neg hnil, sum_map_mul, mul_div_assoc]
  · rw [if_neg hlt, if_neg hlt, ← List.map_drop, sum_map_mul, mul_div_assoc]

lemma ratio_scale (k v s : ℚ) (hk : 0 < k) :
    (if k * s > 0 then k * v / (k * s) else 1) = (if s > 0 then v / s else 1) := by
  by_cases hs : s > 0
  · rw [if_pos (mul_pos hk hs), if_pos hs, mul_div_mul_left _ _ (ne_of_gt hk)]
  · rw [if_neg (fun hc => hs (by nlinarith)), if_neg hs]

lemma pushBounded_map_mul (k v : ℚ) (m : ℕ) (w : List ℚ) :
    pushBounded m (w.map (fun x => k * x)) (k * v)
      = (pushBounded m w v).map (fun x => k * x) := by
  simp [pushBounded, List.map_append, List.length_map, List.map_drop]

lemma analyzeSeq_ratio_scale (sqrtF : ℚ → ℚ) (sp ep : ℕ) (k : ℚ) (hk : 0 < k) :
    ∀ (cs : List CandleVolumeData) (w : List ℚ) (pv pv' : List (ℚ × ℚ))
      (e1 e2 : Option ℚ),
    (analyzeSeq sqrtF ⟨sp, ep, w.map (fun x => k * x), pv'⟩ e1
        (cs.map (fun c => { c with volume := k * c.volume }))).map VolumeMetrics.volume_ratio
      = (analyzeSeq sqrtF ⟨sp, ep, w, pv⟩ e2 cs).map VolumeMetrics.volume_ratio := by
  intro cs
  induction cs with
  | nil => intro w pv pv' e1 e2; simp [analyzeSeq]
  | cons c cs ih =>
    intro w pv pv' e1 e2
    simp only [List.map_cons, analyzeSeq]
    have hpush : pushBounded (max sp ep * 2) (w.map (fun x => k * x)) (k * c.volume)
        = (pushBounded (max sp ep * 2) w c.volume).map (fun x => k * x) :=
      pushBounded_map_mul k c.volume (max sp ep * 2) w
    congr 1
    · simp only [analyze_candle, histMaxlen]
      simp only [hpush, calculate_sma_scale]
      exact ratio_scale k c.volume _ hk
    · have hstate1 : (analyze_candle sqrtF ⟨sp, ep, w.map (fun x => k * x), pv'⟩
          { c with volume := k * c.volume } e1).2
          = ⟨sp, ep, (pushBounded (max sp ep * 2) w c.volume).map (fun x => k * x),
              pv' ++ [(c.close, k * c.volume)]⟩ := by
        simp [analyze_candle, histMaxlen, hpush]
      have hstate2 : (analyze_candle sqrtF ⟨sp, ep, w, pv⟩ c e2).2
          = ⟨sp, ep, pushBounded (max sp ep * 2) w c.volume,
              pv ++ [(c.close, c.volume)]⟩ := by
        simp [analyze_candle, histMaxlen]
      rw [hstate1, hstate2]
      exact ih (pushBounded (max sp ep * 2) w c.volume) (pv ++ [(c.close, c.volume)])
        (pv' ++ [(c.close, k * c.volume)]) _ _

/-- C8: the per-step volume_ratio stream is invariant under scaling every
volume (historical and current) by any k > 0, for every analyzer
configuration, because both the current volume and the SMA scale by k (and
the SMA-zero fallback to ratio 1.0 triggers in the same cases). -/
theorem C8_ratio_scale_invariant (sqrtF : ℚ → ℚ) (sma_periods ema_periods : ℕ)
    (k : ℚ) (hk : 0 < k) (candles : List CandleVolumeData) :
    (analyzeSeq sqrtF (VolumeAnalyzer.init sma_periods ema_periods) none
        (candles.map (fun c => { c with volume := k * c.volume }))).map
        VolumeMetrics.volume_ratio
      = (analyzeSeq sqrtF (VolumeAnalyzer.init sma_periods ema_periods) none candles).map
          VolumeMetrics.volume_ratio := by
  have h := analyzeSeq_ratio_scale sqrtF sma_periods ema_periods k hk candles [] [] []
    none none
  simpa [VolumeAnalyzer.init] using h

/-- Witness for C8 at k = 2 over a concrete two-candle stream. -/
theorem C8_witness :
    (0 : ℚ) < 2 ∧
    (analyzeSeq sqrt0 (VolumeAnalyzer.init 20 20) none
        ([constCandle 100, constCandle 300].map
          (fun c => { c with volume := 2 * c.volume }))).map VolumeMetrics.volume_ratio
      = (analyzeSeq sqrt0 (VolumeAnalyzer.init 20 20) none
          [constCandle 100, constCandle 300]).map VolumeMetrics.volume_ratio :=
  ⟨by norm_num,
    C8_ratio_scale_invariant sqrt0 20 20 2 (by norm_num) [constCandle 100, constCandle 300]⟩

/-- C1: when warmup is at least the number of candles, the backtest loop never
runs, so all three counters are 0 — but the report's percentage lines then
divide `allowed_entries` and `rejected_entries` by `total_entries = 0`
(pt_volume.py:864,867), a ZeroDivisionError modelled here as `none`: the
run does not complete cleanly as the claim asserts. -/
theorem C1_full_warmup_totals_and_divzero (sqrtF : ℚ → ℚ)
    (cfg : VolumeBacktestConfig) (now : ℤ) (coin : String)
    (sma_periods ema_periods warmup : ℕ) (candles : List CandleVolumeData)
    (h : candles.length ≤ warmup) :
    (backtest_volume sqrtF cfg now coin sma_periods ema_periods warmup
      candles).total_entries = 0 ∧
    (backtest_volume sqrtF cfg now coin sma_periods ema_periods warmup
      candles).allowed_entries = 0 ∧
    (backtest_volume sqrtF cfg now coin sma_periods ema_periods warmup
      candles).rejected_entries = 0 ∧
    backtest_report_pcts (backtest_volume sqrtF cfg now coin sma_periods ema_periods warmup
      candles) = none := by
  have hdrop : candles.drop warmup = [] := List.drop_eq_nil_of_le h
  simp [backtest_volume, hdrop, backtest_loop, backtest_report_pcts]

/-- Witness for C1: one candle, warmup 1. -/
theorem C1_witness :
    ([constCandle 100] : List CandleVolumeData).length ≤ 1 ∧
    (backtest_volume sqrt0 defaultConfig 0 "BTC" 20 20 1 [constCandle 100]).total_entries
      = 0 ∧
    (backtest_volume sqrt0 defaultConfig 0 "BTC" 20 20 1 [constCandle 100]).allowed_entries
      = 0 ∧
    (backtest_volume sqrt0 defaultConfig 0 "BTC" 20 20 1 [constCandle 100]).rejected_entries
      = 0 ∧
    backtest_report_pcts
      (backtest_volume sqrt0 defaultConfig 0 "BTC" 20 20 1 [constCandle 100]) = none := by
  have h := C1_full_warmup_totals_and_divzero sqrt0 defaultConfig 0 "BTC" 20 20 1
    [constCandle 100] (by norm_num)
  exact ⟨by norm_num, h.1, h.2.1, h.2.2.1, h.2.2.2⟩

/-! The C2 scenario computation. -/

set_option maxRecDepth 10000 in
lemma scenario21_fields (sqrtF : ℚ → ℚ) :
    ((analyzeSeq sqrtF (VolumeAnalyzer.init 20 20) none scenario21).getD 20
      default).volume_ratio = 25/6 ∧
    ((analyzeSeq sqrtF (VolumeAnalyzer.init 20 20) none scenario21).getD 19
      default).volume_sma = 100 := by
  norm_num [scenario21, analyzeSeq, analyze_candle, pushBounded, histMaxlen, calculate_sma,
    calculate_ema, calculate_vwap, calculate_z_score, detect_trend, VolumeAnalyzer.init,
    constCandle, List.replicate]

/-- A rejection triggered by rule 2 (ratio above maximum) is always classified
"reject_high_volume": its reason contains "spike anomaly" and cannot contain
"too low". -/
lemma make_decision_rule2_reject_high (cfg : VolumeBacktestConfig) (now : ℤ)
    (c : CandleVolumeData) (m : VolumeMetrics) (coin : String)
    (h1 : ¬ m.volume_ratio < cfg.min_volume_ratio)
    (h2 : m.volume_ratio > cfg.max_volume_ratio) :
    (make_decision cfg now c m coin).decision = "reject_high_volume" := by
  have heq : should_allow_entry cfg m c.close
      = (false, "Volume spike anomaly: " ++ fmt2 m.volume_ratio ++ "x average (max: "
          ++ fmtF cfg.max_volume_ratio ++ "x)", 1 * (2/10)) := by
    simp only [should_allow_entry]
    rw [if_neg h1, if_pos h2]
  have hs1 : strSub "too low" ("Volume spike anomaly: " ++ fmt2 m.volume_ratio
      ++ "x average (max: " ++ fmtF cfg.max_volume_ratio ++ "x)") = false :=
    strSub_sandwich_false _ _ _ _ _ _ (fmt2_data_ne_nil _) (fmtF_data_ne_nil _)
      (fmt2_disjoint _ _ fmtChars_tooLow) (fmtF_disjoint _ _ fmtChars_tooLow)
      (by decide) (by decide) (by decide)
  have hs2 : strSub "spike anomaly" ("Volume spike anomaly: " ++ fmt2 m.volume_ratio
      ++ "x average (max: " ++ fmtF cfg.max_volume_ratio ++ "x)") = true :=
    strSub_first_static_true "spike anomaly" "Volume spike anomaly: " _ _ _ _ (by decide)
  simp [make_decision, heq, hs1, hs2]

/-- C2 (amended): a fresh analyzer with sma_periods = 20 fed 20 candles of
volume 100 has volume_sma = 100 at the 20th snapshot; a 21st candle of volume
500 yields volume_ratio = 500 / ((19·100 + 500)/20) = 25/6 ≈ 4.17 (not ≈ 4.76
as the claim reads), which still exceeds the default max_volume_ratio = 3.0,
so `make_decision` on that candle returns "reject_high_volume". -/
theorem C2_scenario_reject_high_volume (sqrtF : ℚ → ℚ) :
    ((analyzeSeq sqrtF (VolumeAnalyzer.init 20 20) none scenario21).getD 19
      default).volume_sma = 100 ∧
    ((analyzeSeq sqrtF (VolumeAnalyzer.init 20 20) none scenario21).getD 20
      default).volume_ratio = 25/6 ∧
    defaultConfig.max_volume_ratio
      < ((analyzeSeq sqrtF (VolumeAnalyzer.init 20 20) none scenario21).getD 20
          default).volume_ratio ∧
    (make_decision defaultConfig 0 (constCandle 500)
        ((analyzeSeq sqrtF (VolumeAnalyzer.init 20 20) none scenario21).getD 20 default)
        "BTC").decision = "reject_high_volume" := by
  obtain ⟨hratio, hsma⟩ := scenario21_fields sqrtF
  refine ⟨hsma, hratio, by rw [hratio]; norm_num [defaultConfig], ?_⟩
  apply make_decision_rule2_reject_high
  · rw [hratio]
    norm_num [defaultConfig]
  · rw [hratio]
    norm_num [defaultConfig]

/-- Counterexample to C2 as stated: the 21st snapshot's volume_ratio equals
25/6 ≈ 4.17, which is not within 0.5 of the claimed ≈ 4.76 (the SMA at the
21st candle averages the window including the 500-volume candle: 120, not
105). -/
theorem C2_counterexample :
    ((analyzeSeq sqrt0 (VolumeAnalyzer.init 20 20) none scenario21).getD 20
      default).volume_ratio = 25/6 ∧
    ¬ |((analyzeSeq sqrt0 (VolumeAnalyzer.init 20 20) none scenario21).getD 20
      default).volume_ratio - 476/100| < 1/2 := by
  obtain ⟨hratio, _⟩ := scenario21_fields sqrt0
  refine ⟨hratio, ?_⟩
  rw [hratio, show |(25/6 : ℚ) - 476/100| = 89/150 from by
    rw [abs_of_neg (by norm_num : (25/6 : ℚ) - 476/100 < 0)]
    norm_num]
  norm_num
